import Mathlib

/-!
Verification of the ELD log-sheet rendering engine of
`src/frontend/src/components/LogSheets.js` (Spotter ELD Trip Planner).

The JavaScript component is shallowly embedded here:

* JS numbers flowing out of `parseTime` are modeled as `JsNum := Option ℚ`,
  with `none` standing for NaN (and for `undefined` entering arithmetic,
  which also yields NaN in JS); arithmetic propagates `none`.
* Canvas calls (`fillText`, `stroke` of a line path, `fillRect`,
  `strokeRect`, `clearRect`) are recorded as a list of `DrawOp` values in
  the order the source issues them.  The fill/stroke style and line width
  in force at a rectangle call are recorded in the op, exactly as the
  source sets them immediately before each call.
* A JS member access that throws (reading a field of `undefined`, or
  calling `toFixed` on `undefined`) is modeled with `Except String`;
  evaluation is sequenced in source order, so the first throwing access
  determines the error, and React's rendering of the mapped children is
  sequential and aborts on an uncaught exception (no error boundary exists
  in the source), which the orchestrator models with fail-fast sequencing.
* `date.toLocaleDateString()` is locale dependent; its output is abstracted
  as the raw date string carried by a dedicated `DrawOp.dateText`
  constructor (no claim under verification inspects the formatted date).
-/

namespace Spotter

/-! ### JS number model -/

/-- A JS number that may be NaN: `none` is NaN, `some q` a finite value.
All finite values this component computes are rational. -/
abbrev JsNum := Option ℚ

/-- JS `+` on possibly-NaN values: NaN propagates. -/
def jsAdd : JsNum → JsNum → JsNum
  | some a, some b => some (a + b)
  | _, _ => none

/-- JS `-` on possibly-NaN values: NaN propagates. -/
def jsSub : JsNum → JsNum → JsNum
  | some a, some b => some (a - b)
  | _, _ => none

/-- JS division by a nonzero finite constant: NaN propagates. -/
def jsDiv (a : JsNum) (c : ℚ) : JsNum := a.map (fun q => q / c)

/-! ### String and numeral primitives

`String.splitOn`, `String.toNat?` and `Nat.repr` do not reduce inside the
kernel, so the splitting, digit parsing and digit rendering the component
needs are defined here by structural recursion over the character list of
the string. -/

/-- Split a character list at every occurrence of `sep`
(the behavior of JS `String.prototype.split` with a one-character
separator, on the character level). -/
def splitChar (sep : Char) : List Char → List (List Char)
  | [] => [[]]
  | c :: rest =>
    match splitChar sep rest with
    | [] => [[c]]
    | h :: t => if c = sep then [] :: h :: t else (c :: h) :: t

/-- The numeric value of a decimal digit character, if it is one. -/
def charDigit? (c : Char) : Option ℕ :=
  if 48 ≤ c.toNat ∧ c.toNat ≤ 57 then some (c.toNat - 48) else none

/-- Value of a digit string (accumulator form); `none` if any character is
not a decimal digit. -/
def digitsVal : List Char → ℕ → Option ℕ
  | [], acc => some acc
  | c :: cs, acc =>
    match charDigit? c with
    | some d => digitsVal cs (acc * 10 + d)
    | none => none

/-- The decimal digit character for `n < 10`. -/
def digitChar (n : ℕ) : Char := Char.ofNat (48 + n)

/-- Decimal digits of `n`, most significant first (fuel form). -/
def natToChars : ℕ → ℕ → List Char
  | 0, _ => []
  | fuel + 1, n =>
    if n < 10 then [digitChar n] else natToChars fuel (n / 10) ++ [digitChar (n % 10)]

/-- Decimal rendering of a natural number. -/
def natToStr (n : ℕ) : String := String.mk (natToChars (n + 1) n)

/-- Models the JS `Number()` conversion for the character list of a string,
for the numeral formats this component receives: the empty string converts
to `0` (as in JS), a string of decimal digits (optionally with a `.` and a
digit fractional part) to its value, and anything else to NaN. -/
def jsNumberChars (cs : List Char) : JsNum :=
  match cs with
  | [] => some 0
  | _ =>
    match splitChar '.' cs with
    | [w] => (digitsVal w 0).map (fun n => (n : ℚ))
    | [w, f] =>
      match digitsVal w 0, digitsVal f 0 with
      | some n, some m => some ((n : ℚ) + (m : ℚ) / (10 : ℚ) ^ f.length)
      | _, _ => none
    | _ => none

/-- JS `Number()` on a string. -/
def jsNumber (s : String) : JsNum := jsNumberChars s.data

/-- Models JS `Number.prototype.toFixed(2)`: round to two decimals (ties
rounded by the larger-`n` rule of the ECMA spec) and render with exactly
two fraction digits.  No claim under verification inspects this output;
it is kept faithful so that the text ops carry the formatted values. -/
def toFixed2 (q : ℚ) : String :=
  let n : ℤ := ⌊q * 100 + 1 / 2⌋
  let m := n.natAbs
  (if n < 0 then "-" else "") ++ natToStr (m / 100) ++ "." ++
    (if m % 100 < 10 then "0" else "") ++ natToStr (m % 100)

/-! ### parseTime (LogSheets.js lines 189–192)

```js
const parseTime = (timeStr) => {
  const [hours, minutes] = timeStr.split(':').map(Number);
  return hours + minutes / 60;
};
```

If the split yields a single piece, `minutes` is `undefined` and
`minutes / 60` is NaN; a non-numeric piece is NaN from `Number`. -/

/-- `parseTime` of LogSheets.js: fractional hours, or NaN (`none`). -/
def parseTime (timeStr : String) : JsNum :=
  let parts := (splitChar ':' timeStr.data).map jsNumberChars
  let hours : JsNum := (parts.get? 0).getD none
  let minutes : JsNum := (parts.get? 1).getD none
  jsAdd hours (jsDiv minutes 60)

/-! ### Data model -/

/-- One duty activity of a daily log (`type`, `start`, `end` strings). -/
structure Activity where
  type : String
  start : String
  «end» : String
deriving Repr, DecidableEq

/-- The recap record; a field holds `none` when the upstream JSON omitted
it (JS `undefined`), in which case `toFixed` on it throws. -/
structure Recap where
  driving_hours : Option ℚ
  on_duty_hours : Option ℚ
  off_duty_hours : Option ℚ
  total_70hr_8day : Option ℚ
  available_tomorrow : Option ℚ
deriving Repr, DecidableEq

/-- One `DailyLog` as consumed by the component.  `activities` and `recap`
are `Option`s because the upstream object may lack the field (`undefined`
in JS); `total_miles_driving` likewise. -/
structure DailyLog where
  date : String
  origin : String
  destination : String
  total_miles_driving : Option ℚ
  activities : Option (List Activity)
  recap : Option Recap
deriving Repr, DecidableEq

/-- A recorded canvas call.  Coordinates that flow through `parseTime` are
`JsNum` (possibly NaN); all other geometry is finite.  `dateText` records
the `fillText` of `date.toLocaleDateString()`, carrying the raw date
string (the locale rendering is abstracted, see the module docstring). -/
inductive DrawOp where
  | clearRect : ℚ → ℚ → ℚ → ℚ → DrawOp
  | fillText : String → ℚ → ℚ → DrawOp
  | dateText : String → ℚ → ℚ → DrawOp
  | strokeLine : ℚ → ℚ → ℚ → ℚ → DrawOp
  | fillRect : JsNum → ℚ → JsNum → ℚ → String → DrawOp
  | strokeRect : JsNum → ℚ → JsNum → ℚ → String → ℚ → DrawOp
deriving Repr, DecidableEq

/-! ### Layout constants of drawLogSheet (lines 75–80, 104–105, 145) -/

def margin : ℚ := 40
def timelineY : ℚ := 250
def timelineHeight : ℚ := 300
def timelineWidth (width : ℚ) : ℚ := width - 2 * margin - 200
def timelineX : ℚ := margin + 200
def statusYStart : ℚ := timelineY + 20
def statusRowHeight : ℚ := 50
def recapY : ℚ := timelineY + timelineHeight + 50

/-- The time-axis mapping `x0 + (h / 24) * w`, as inlined at lines 129 and
164–165 of the source. -/
def timeAxisMapper (x0 w h : ℚ) : ℚ := x0 + h / 24 * w

/-! ### Activity bars (drawDutyStatusTimeline, lines 157–187) -/

/-- Row index of an activity type (lines 167–172): `driving` → 2,
`on_duty` → 3, everything else keeps the initial 0. -/
def rowIndexOf (ty : String) : ℕ :=
  if ty = "driving" then 2 else if ty = "on_duty" then 3 else 0

/-- Fill style chosen at lines 178–179. -/
def activityColor (ty : String) : String :=
  if ty = "driving" then "#e74c3c" else if ty = "on_duty" then "#f39c12" else "#3498db"

/-- The two canvas calls issued for one activity (lines 160–186):
a filled rectangle, then a 1-unit black border around the same rectangle. -/
def drawActivity (x yStart width rowHeight : ℚ) (a : Activity) : List DrawOp :=
  let startX := (parseTime a.start).map (timeAxisMapper x width)
  let endX := (parseTime a.«end»).map (timeAxisMapper x width)
  let y := yStart + (rowIndexOf a.type : ℚ) * rowHeight - 10
  let barHeight := rowHeight - 2
  [DrawOp.fillRect startX y (jsSub endX startX) barHeight (activityColor a.type),
   DrawOp.strokeRect startX y (jsSub endX startX) barHeight "#000" 1]

/-- `drawDutyStatusTimeline`: `log.activities || []`, one pair of calls per
activity, in input order. -/
def drawDutyStatusTimeline (log : DailyLog) (x yStart width rowHeight : ℚ) : List DrawOp :=
  ((log.activities.getD []).map (drawActivity x yStart width rowHeight)).flatten

/-! ### Grid and text of drawLogSheet (lines 74–155) -/

/-- The four duty-status row labels (lines 97–110). -/
def statusLabels : List String :=
  ["1. Off Duty", "2. Sleeper Berth", "3. Driving", "4. On Duty (not driving)"]

def statusLabelOps : List DrawOp :=
  statusLabels.enum.map fun p =>
    DrawOp.fillText p.2 (margin + 20) (statusYStart + (p.1 : ℚ) * statusRowHeight + 15)

/-- The five horizontal row separator lines (lines 117–123). -/
def rowSeparatorOps (width : ℚ) : List DrawOp :=
  (List.range 5).map fun (i : ℕ) =>
    DrawOp.strokeLine timelineX (statusYStart + (i : ℚ) * statusRowHeight - 10)
      (timelineX + timelineWidth width) (statusYStart + (i : ℚ) * statusRowHeight - 10)

/-- Hour label text (line 136): `Mid` at 0, `Noon` at 12, `hour−12` above
12, the hour's numeral below 12. -/
def hourLabel (hour : ℕ) : String :=
  if hour = 0 then "Mid"
  else if hour = 12 then "Noon"
  else if hour > 12 then natToStr (hour - 12)
  else natToStr hour

/-- The calls of one iteration of the hour loop (lines 128–139): a vertical
tick at every hour, plus a label at even hours. -/
def hourEntry (width : ℚ) (hour : ℕ) : List DrawOp :=
  DrawOp.strokeLine (timeAxisMapper timelineX (timelineWidth width) (hour : ℚ))
      (statusYStart - 10)
      (timeAxisMapper timelineX (timelineWidth width) (hour : ℚ))
      (statusYStart + 4 * statusRowHeight - 10) ::
    (if hour % 2 = 0 then
      [DrawOp.fillText (hourLabel hour)
        (timeAxisMapper timelineX (timelineWidth width) (hour : ℚ) - 10) (statusYStart - 15)]
    else [])

/-- The 25 iterations of the hour loop, hours 0–24. -/
def hourOps (width : ℚ) : List DrawOp :=
  ((List.range 25).map (hourEntry width)).flatten

/-- `toFixed(2)` on a possibly-missing number: calling `toFixed` on
`undefined` throws a TypeError in JS. -/
def jsToFixed2 : Option ℚ → Except String String
  | none => .error "TypeError: toFixed of undefined"
  | some q => .ok (toFixed2 q)

/-- Reading `log.recap.<field>.toFixed(2)`: throws if `recap` itself is
missing, or if the field is missing. -/
def recapField (log : DailyLog) (f : Recap → Option ℚ) : Except String String :=
  match log.recap with
  | none => .error "TypeError: log.recap is undefined"
  | some r => jsToFixed2 (f r)

/-- The five header texts (lines 83–94), in source order.  `miles` is the
already-formatted `total_miles_driving.toFixed(2)`. -/
def headerList (width : ℚ) (log : DailyLog) (miles : String) : List DrawOp :=
  [DrawOp.fillText "Drivers Daily Log (24 hours)" margin 30,
   DrawOp.dateText log.date (width - 200) 30,
   DrawOp.fillText ("From: " ++ log.origin) margin 60,
   DrawOp.fillText ("To: " ++ log.destination) margin 80,
   DrawOp.fillText ("Total Miles: " ++ miles) margin 100]

def headerOps (width : ℚ) (log : DailyLog) : Except String (List DrawOp) :=
  (jsToFixed2 log.total_miles_driving).map (headerList width log)

/-- The six recap texts (lines 145–154), with the formatted field values. -/
def recapList (onDuty driving offDuty total70 avail : String) : List DrawOp :=
  [DrawOp.fillText "Recap: Complete at end of day" margin recapY,
   DrawOp.fillText ("On duty hours today: " ++ onDuty) margin (recapY + 30),
   DrawOp.fillText ("Driving hours: " ++ driving) margin (recapY + 50),
   DrawOp.fillText ("Off duty hours: " ++ offDuty) margin (recapY + 70),
   DrawOp.fillText ("Total 70hr/8day: " ++ total70) margin (recapY + 90),
   DrawOp.fillText ("Available tomorrow: " ++ avail ++ " hrs") margin (recapY + 110)]

/-- The recap block: the five field reads, in the order of lines 150–154. -/
def recapOps (log : DailyLog) : Except String (List DrawOp) :=
  (recapField log Recap.on_duty_hours).bind fun onDuty =>
  (recapField log Recap.driving_hours).bind fun driving =>
  (recapField log Recap.off_duty_hours).bind fun offDuty =>
  (recapField log Recap.total_70hr_8day).bind fun total70 =>
  (recapField log Recap.available_tomorrow).map fun avail =>
    recapList onDuty driving offDuty total70 avail

/-- `drawLogSheet` (lines 74–155): header and origin/destination texts,
status labels, row separators, hour ticks and labels, activity bars, recap
texts — in that source order.  The `height` parameter is received but, as
in the source, unused by the drawing body.  The first throwing member
access (the `toFixed` at line 94, else one of lines 150–154) aborts with
its TypeError. -/
def drawLogSheet (width height : ℚ) (log : DailyLog) : Except String (List DrawOp) :=
  (headerOps width log).bind fun header =>
  (recapOps log).map fun recap =>
    header ++ statusLabelOps ++ rowSeparatorOps width ++ hourOps width ++
      drawDutyStatusTimeline log timelineX statusYStart (timelineWidth width) statusRowHeight ++
      recap

/-! ### The per-day component and the orchestrator (lines 4–72) -/

/-- What one `LogSheet` component yields: the canvas op sequence of its
effect (starting with the `clearRect` of line 33) plus its textual header
and summary fields. -/
structure SheetOut where
  day : ℕ
  headerDate : String
  canvasOps : List DrawOp
  summary : List String
deriving Repr, DecidableEq

/-- One `LogSheet` (lines 21–72), canvas 1000×1400 (lines 50–55).  The
summary JSX dereferences `log.recap.driving_hours.toFixed(2)` etc. (lines
58–67) during render, before the canvas effect runs; an uncaught TypeError
from any of them fails this day's render. -/
def renderLogSheet (log : DailyLog) (dayNumber : ℕ) : Except String SheetOut :=
  (recapField log Recap.driving_hours).bind fun driving =>
  (recapField log Recap.on_duty_hours).bind fun onDuty =>
  (recapField log Recap.off_duty_hours).bind fun offDuty =>
  (jsToFixed2 log.total_miles_driving).bind fun miles =>
  (drawLogSheet 1000 1400 log).map fun ops =>
    { day := dayNumber
      headerDate := log.date
      canvasOps := DrawOp.clearRect 0 0 1000 1400 :: ops
      summary := ["Driving Hours: " ++ driving ++ " hrs",
                  "On Duty Hours: " ++ onDuty ++ " hrs",
                  "Off Duty Hours: " ++ offDuty ++ " hrs",
                  "Total Miles: " ++ miles ++ " miles"] }

/-- `logs.map((log, index) => <LogSheet dayNumber={index+1}/>)` rendered
sequentially: day numbers are positional, starting at 1. -/
def renderSheets : ℕ → List DailyLog → Except String (List SheetOut)
  | _, [] => .ok []
  | i, log :: rest =>
    (renderLogSheet log (i + 1)).bind fun s =>
    (renderSheets (i + 1) rest).map fun others => s :: others

/-- The `LogSheets` orchestrator (lines 4–19): `null` (here `none`) when
`logs` is missing or empty, otherwise one sheet per log in order.  React
renders the mapped children sequentially within one pass and an uncaught
exception aborts the pass (the source installs no error boundary), hence
the fail-fast sequencing. -/
def logSheets : Option (List DailyLog) → Except String (Option (List SheetOut))
  | none => .ok none
  | some l =>
    if l.length = 0 then .ok none
    else (renderSheets 0 l).map fun sheets => some sheets

/-! ### Observation helpers (verification side) -/

/-- Whether an `Except` value is a success. -/
def isOk {ε α : Type} : Except ε α → Bool
  | .ok _ => true
  | .error _ => false

/-- The ops of a successful draw (empty on error); used to state closed
facts about concrete renders. -/
def okOps : Except String (List DrawOp) → List DrawOp
  | .ok l => l
  | .error _ => []

/-- The sheet of a successful per-day render (a dummy on error). -/
def okSheet : Except String SheetOut → SheetOut
  | .ok s => s
  | .error _ => { day := 0, headerDate := "", canvasOps := [], summary := [] }

/-- The sheets of a successful orchestrator run (empty on error/null). -/
def okSheets : Except String (Option (List SheetOut)) → List SheetOut
  | .ok (some l) => l
  | _ => []

/-- A horizontal stroked line (the shape of a row separator). -/
def isHorizontalLine : DrawOp → Bool
  | .strokeLine _ y1 _ y2 => decide (y1 = y2)
  | _ => false

/-- A vertical stroked line (the shape of an hour tick). -/
def isVerticalTick : DrawOp → Bool
  | .strokeLine x1 _ x2 _ => decide (x1 = x2)
  | _ => false

/-- A text op on the hour-label line (y = statusYStart − 15); no other
text of the sheet is drawn at that height. -/
def isHourLabel : DrawOp → Bool
  | .fillText _ _ y => decide (y = statusYStart - 15)
  | _ => false

/-- The string of a text op. -/
def labelText : DrawOp → String
  | .fillText s _ _ => s
  | _ => ""

/-- An activity-bar rectangle call (fill or border). -/
def isBarRect : DrawOp → Bool
  | .fillRect _ _ _ _ _ => true
  | .strokeRect _ _ _ _ _ _ => true
  | _ => false

/-- A grid line call (separator or tick). -/
def isGridLine : DrawOp → Bool
  | .strokeLine _ _ _ _ => true
  | _ => false

/-- A text call (plain or date). -/
def isTextOp : DrawOp → Bool
  | .fillText _ _ _ => true
  | .dateText _ _ _ => true
  | _ => false

/-! ### Concrete inputs (the scenario of spec §8, and mutants of it) -/

def demoRecap : Recap :=
  { driving_hours := some 13, on_duty_hours := some 1, off_duty_hours := some 10,
    total_70hr_8day := some 35, available_tomorrow := some 11 }

def demoActivities : List Activity :=
  [⟨"off_duty", "00:00", "06:00"⟩, ⟨"driving", "06:00", "12:00"⟩,
   ⟨"on_duty", "12:00", "13:00"⟩, ⟨"driving", "13:00", "20:00"⟩,
   ⟨"off_duty", "20:00", "24:00"⟩]

def demoLog : DailyLog :=
  { date := "2024-03-01", origin := "New York, NY", destination := "Chicago, IL",
    total_miles_driving := some 1350, activities := some demoActivities,
    recap := some demoRecap }

/-- The demo log with one activity whose `start` is not a parseable time. -/
def badTimeLog : DailyLog :=
  { demoLog with activities := some [⟨"off_duty", "noon", "06:00"⟩] }

/-- The demo log with one activity whose `end` is not a parseable time. -/
def badEndLog : DailyLog :=
  { demoLog with activities := some [⟨"off_duty", "06:00", "noon"⟩] }

/-- The demo log with the whole `recap` object missing. -/
def badRecapLog : DailyLog :=
  { demoLog with recap := none }

/-- The demo log with the `activities` field missing altogether. -/
def noActsLog : DailyLog :=
  { demoLog with activities := none }

end Spotter

namespace Spotter

/-! ### Generic Except helpers -/

lemma jsSub_none_right (a : JsNum) : jsSub a none = none := by
  cases a <;> rfl

lemma jsSub_none_left (b : JsNum) : jsSub none b = none := by
  cases b <;> rfl

lemma bind_ok {α β : Type} {e : Except String α} {f : α → Except String β} {b : β}
    (h : e.bind f = .ok b) : ∃ a, e = .ok a ∧ f a = .ok b := by
  cases e with
  | error _ => simp [Except.bind] at h
  | ok a => exact ⟨a, rfl, h⟩

lemma map_ok {α β : Type} {e : Except String α} {f : α → β} {b : β}
    (h : e.map f = .ok b) : ∃ a, e = .ok a ∧ f a = b := by
  cases e with
  | error _ => simp [Except.map] at h
  | ok a =>
    refine ⟨a, rfl, ?_⟩
    simpa [Except.map] using h

/-! ### Shape of a successful drawLogSheet -/

lemma headerOps_ok {w : ℚ} {log : DailyLog} {l : List DrawOp}
    (h : headerOps w log = .ok l) : ∃ miles, l = headerList w log miles := by
  obtain ⟨m, _, hm⟩ := map_ok h
  exact ⟨m, hm.symm⟩

lemma recapOps_ok {log : DailyLog} {l : List DrawOp}
    (h : recapOps log = .ok l) : ∃ a b c d e, l = recapList a b c d e := by
  obtain ⟨a, _, h⟩ := bind_ok h
  obtain ⟨b, _, h⟩ := bind_ok h
  obtain ⟨c, _, h⟩ := bind_ok h
  obtain ⟨d, _, h⟩ := bind_ok h
  obtain ⟨e, _, h⟩ := map_ok h
  exact ⟨a, b, c, d, e, h.symm⟩

/-- A successful `drawLogSheet` is exactly the six source segments in
order, the header and recap segments being text lists. -/
lemma drawLogSheet_ok {w ht : ℚ} {log : DailyLog} {ops : List DrawOp}
    (h : drawLogSheet w ht log = .ok ops) :
    ∃ miles a b c d e,
      ops = headerList w log miles ++ statusLabelOps ++ rowSeparatorOps w ++ hourOps w ++
        drawDutyStatusTimeline log timelineX statusYStart (timelineWidth w) statusRowHeight ++
        recapList a b c d e := by
  unfold drawLogSheet at h
  obtain ⟨hdr, hh, h⟩ := bind_ok h
  obtain ⟨rec, hr, h⟩ := map_ok h
  obtain ⟨miles, rfl⟩ := headerOps_ok hh
  obtain ⟨a, b, c, d, e, rfl⟩ := recapOps_ok hr
  exact ⟨miles, a, b, c, d, e, h.symm⟩

/-! ### Classification of the ops in each segment -/

lemma mem_timeline_isBarRect {log : DailyLog} {x y w r : ℚ} {op : DrawOp}
    (h : op ∈ drawDutyStatusTimeline log x y w r) : isBarRect op = true := by
  unfold drawDutyStatusTimeline at h
  simp only [List.mem_flatten, List.mem_map] at h
  obtain ⟨l, ⟨a, _, rfl⟩, hop⟩ := h
  unfold drawActivity at hop
  simp only [List.mem_cons, List.mem_singleton] at hop
  rcases hop with rfl | rfl | hop
  · rfl
  · rfl
  · simp at hop

lemma mem_headerList_isTextOp {w : ℚ} {log : DailyLog} {m : String} {op : DrawOp}
    (h : op ∈ headerList w log m) : isTextOp op = true := by
  simp only [headerList, List.mem_cons, List.mem_singleton] at h
  rcases h with rfl | rfl | rfl | rfl | rfl | h
  · rfl
  · rfl
  · rfl
  · rfl
  · rfl
  · simp at h

lemma mem_recapList_isTextOp {a b c d e : String} {op : DrawOp}
    (h : op ∈ recapList a b c d e) : isTextOp op = true := by
  simp only [recapList, List.mem_cons, List.mem_singleton] at h
  rcases h with rfl | rfl | rfl | rfl | rfl | rfl | h
  · rfl
  · rfl
  · rfl
  · rfl
  · rfl
  · rfl
  · simp at h

lemma mem_statusLabelOps_isTextOp {op : DrawOp}
    (h : op ∈ statusLabelOps) : isTextOp op = true := by
  simp only [statusLabelOps, List.mem_map] at h
  obtain ⟨p, _, rfl⟩ := h
  rfl

lemma mem_rowSeparatorOps_isGridLine {w : ℚ} {op : DrawOp}
    (h : op ∈ rowSeparatorOps w) : isGridLine op = true := by
  simp only [rowSeparatorOps, List.mem_map] at h
  obtain ⟨i, _, rfl⟩ := h
  rfl

lemma mem_hourOps_grid_or_label {w : ℚ} {op : DrawOp}
    (h : op ∈ hourOps w) : isGridLine op = true ∨ isHourLabel op = true := by
  unfold hourOps at h
  simp only [List.mem_flatten, List.mem_map] at h
  obtain ⟨l, ⟨hr, _, rfl⟩, hop⟩ := h
  unfold hourEntry at hop
  rcases List.mem_cons.mp hop with rfl | hop
  · exact Or.inl rfl
  · right
    by_cases hp : hr % 2 = 0
    · simp only [hp, if_true, List.mem_singleton] at hop
      subst hop
      simp [isHourLabel]
    · simp [hp] at hop

lemma isTextOp_not_bar {op : DrawOp} (h : isTextOp op = true) : isBarRect op = false := by
  cases op <;> simp_all [isTextOp, isBarRect]

lemma isTextOp_not_grid {op : DrawOp} (h : isTextOp op = true) : isGridLine op = false := by
  cases op <;> simp_all [isTextOp, isGridLine]

lemma isBarRect_not_grid {op : DrawOp} (h : isBarRect op = true) : isGridLine op = false := by
  cases op <;> simp_all [isBarRect, isGridLine]

lemma isHourLabel_isTextOp {op : DrawOp} (h : isHourLabel op = true) : isTextOp op = true := by
  cases op <;> simp_all [isHourLabel, isTextOp]

end Spotter

namespace Spotter

/-! ### Pointwise facts about the grid predicates -/

lemma isHourLabel_headerList {w : ℚ} {log : DailyLog} {m : String} {op : DrawOp}
    (h : op ∈ headerList w log m) : isHourLabel op = false := by
  simp only [headerList, List.mem_cons, List.mem_singleton] at h
  rcases h with rfl | rfl | rfl | rfl | rfl | h
  · simp only [isHourLabel, decide_eq_false_iff_not, statusYStart, timelineY]; norm_num
  · rfl
  · simp only [isHourLabel, decide_eq_false_iff_not, statusYStart, timelineY]; norm_num
  · simp only [isHourLabel, decide_eq_false_iff_not, statusYStart, timelineY]; norm_num
  · simp only [isHourLabel, decide_eq_false_iff_not, statusYStart, timelineY]; norm_num
  · simp at h

lemma isHourLabel_statusLabelOps {op : DrawOp}
    (h : op ∈ statusLabelOps) : isHourLabel op = false := by
  simp only [statusLabelOps, List.mem_map] at h
  obtain ⟨p, _, rfl⟩ := h
  simp only [isHourLabel, decide_eq_false_iff_not, statusRowHeight]
  intro heq
  have hp : (0 : ℚ) ≤ (p.1 : ℚ) := Nat.cast_nonneg p.1
  nlinarith [heq]

lemma isHourLabel_recapList {a b c d e : String} {op : DrawOp}
    (h : op ∈ recapList a b c d e) : isHourLabel op = false := by
  simp only [recapList, List.mem_cons, List.mem_singleton] at h
  rcases h with rfl | rfl | rfl | rfl | rfl | rfl | h
  · simp only [isHourLabel, decide_eq_false_iff_not, recapY, statusYStart, timelineY,
      timelineHeight]; norm_num
  · simp only [isHourLabel, decide_eq_false_iff_not, recapY, statusYStart, timelineY,
      timelineHeight]; norm_num
  · simp only [isHourLabel, decide_eq_false_iff_not, recapY, statusYStart, timelineY,
      timelineHeight]; norm_num
  · simp only [isHourLabel, decide_eq_false_iff_not, recapY, statusYStart, timelineY,
      timelineHeight]; norm_num
  · simp only [isHourLabel, decide_eq_false_iff_not, recapY, statusYStart, timelineY,
      timelineHeight]; norm_num
  · simp only [isHourLabel, decide_eq_false_iff_not, recapY, statusYStart, timelineY,
      timelineHeight]; norm_num
  · simp at h

lemma isHourLabel_timeline {log : DailyLog} {x y w r : ℚ} {op : DrawOp}
    (h : op ∈ drawDutyStatusTimeline log x y w r) : isHourLabel op = false := by
  have hb := mem_timeline_isBarRect h
  cases op <;> simp_all [isBarRect, isHourLabel]

lemma isHorizontalLine_sep {w : ℚ} {op : DrawOp}
    (h : op ∈ rowSeparatorOps w) : isHorizontalLine op = true := by
  simp only [rowSeparatorOps, List.mem_map] at h
  obtain ⟨i, _, rfl⟩ := h
  simp [isHorizontalLine]

lemma isVerticalTick_sep {op : DrawOp}
    (h : op ∈ rowSeparatorOps 1000) : isVerticalTick op = false := by
  simp only [rowSeparatorOps, List.mem_map] at h
  obtain ⟨i, _, rfl⟩ := h
  simp only [isVerticalTick, decide_eq_false_iff_not, timelineX, timelineWidth, margin]
  norm_num

/-! ### Counting the grid primitives -/

lemma countP_sep_horizontal (w : ℚ) :
    (rowSeparatorOps w).countP isHorizontalLine = 5 := by
  have h : (rowSeparatorOps w).countP isHorizontalLine = (rowSeparatorOps w).length :=
    List.countP_eq_length.mpr (fun op hop => isHorizontalLine_sep hop)
  rw [h, rowSeparatorOps, List.length_map, List.length_range]

lemma countP_sep_vertical :
    (rowSeparatorOps 1000).countP isVerticalTick = 0 :=
  List.countP_eq_zero.mpr (fun op hop => by simp [isVerticalTick_sep hop])

lemma filter_sep_label (w : ℚ) :
    (rowSeparatorOps w).filter isHourLabel = [] := by
  apply List.filter_eq_nil_iff.mpr
  intro op hop
  simp only [rowSeparatorOps, List.mem_map] at hop
  obtain ⟨i, _, rfl⟩ := hop
  simp [isHourLabel]

lemma hourEntry_countP_tick (w : ℚ) (hr : ℕ) :
    (hourEntry w hr).countP isVerticalTick = 1 := by
  by_cases hp : hr % 2 = 0 <;>
    simp [hourEntry, hp, List.countP_cons, isVerticalTick]

lemma hourEntry_countP_horiz (w : ℚ) (hr : ℕ) :
    (hourEntry w hr).countP isHorizontalLine = 0 := by
  have hy : ¬(statusYStart - 10 = statusYStart + 4 * statusRowHeight - 10) := by
    simp only [statusRowHeight]; norm_num
  by_cases hp : hr % 2 = 0 <;>
    simp [hourEntry, hp, List.countP_cons, isHorizontalLine, hy]

lemma hourEntry_filter_label (w : ℚ) (hr : ℕ) :
    ((hourEntry w hr).filter isHourLabel).map labelText =
      if hr % 2 = 0 then [hourLabel hr] else [] := by
  by_cases hp : hr % 2 = 0 <;>
    simp [hourEntry, hp, List.filter_cons, isHourLabel, labelText]

lemma hourOps_aux_tick (w : ℚ) (ns : List ℕ) :
    ((ns.map (hourEntry w)).flatten).countP isVerticalTick = ns.length := by
  induction ns with
  | nil => rfl
  | cons n t ih =>
    rw [List.map_cons, List.flatten_cons, List.countP_append, hourEntry_countP_tick, ih,
      List.length_cons]
    omega

lemma hourOps_aux_horiz (w : ℚ) (ns : List ℕ) :
    ((ns.map (hourEntry w)).flatten).countP isHorizontalLine = 0 := by
  induction ns with
  | nil => rfl
  | cons n t ih =>
    rw [List.map_cons, List.flatten_cons, List.countP_append, hourEntry_countP_horiz, ih]

lemma hourOps_aux_label (w : ℚ) (ns : List ℕ) :
    (((ns.map (hourEntry w)).flatten).filter isHourLabel).map labelText =
      (ns.filter (fun n => n % 2 = 0)).map hourLabel := by
  induction ns with
  | nil => rfl
  | cons n t ih =>
    rw [List.map_cons, List.flatten_cons, List.filter_append, List.map_append,
      hourEntry_filter_label, ih]
    by_cases hp : n % 2 = 0
    · simp [List.filter_cons, hp]
    · simp [List.filter_cons, hp]

lemma countP_hour_tick (w : ℚ) : (hourOps w).countP isVerticalTick = 25 := by
  rw [hourOps, hourOps_aux_tick, List.length_range]

lemma countP_hour_horiz (w : ℚ) : (hourOps w).countP isHorizontalLine = 0 := by
  rw [hourOps, hourOps_aux_horiz]

lemma filter_hour_label (w : ℚ) :
    ((hourOps w).filter isHourLabel).map labelText =
      ["Mid", "2", "4", "6", "8", "10", "Noon", "2", "4", "6", "8", "10", "12"] := by
  rw [hourOps, hourOps_aux_label]
  rfl

end Spotter

namespace Spotter

/-! ### Membership of specific ops in a successful draw -/

/-- The fill call of any activity of the log appears among the ops of a
successful `drawLogSheet` (canvas width 1000). -/
lemma bar_fill_mem {log : DailyLog} {ops : List DrawOp} {a : Activity}
    (hok : drawLogSheet 1000 1400 log = .ok ops) (ha : a ∈ log.activities.getD []) :
    DrawOp.fillRect ((parseTime a.start).map (timeAxisMapper timelineX (timelineWidth 1000)))
      (statusYStart + (rowIndexOf a.type : ℚ) * statusRowHeight - 10)
      (jsSub ((parseTime a.«end»).map (timeAxisMapper timelineX (timelineWidth 1000)))
        ((parseTime a.start).map (timeAxisMapper timelineX (timelineWidth 1000))))
      (statusRowHeight - 2) (activityColor a.type) ∈ ops := by
  obtain ⟨m, b1, b2, b3, b4, b5, rfl⟩ := drawLogSheet_ok hok
  have hmem : DrawOp.fillRect
      ((parseTime a.start).map (timeAxisMapper timelineX (timelineWidth 1000)))
      (statusYStart + (rowIndexOf a.type : ℚ) * statusRowHeight - 10)
      (jsSub ((parseTime a.«end»).map (timeAxisMapper timelineX (timelineWidth 1000)))
        ((parseTime a.start).map (timeAxisMapper timelineX (timelineWidth 1000))))
      (statusRowHeight - 2) (activityColor a.type) ∈
      drawDutyStatusTimeline log timelineX statusYStart (timelineWidth 1000) statusRowHeight := by
    unfold drawDutyStatusTimeline
    refine List.mem_flatten.mpr
      ⟨drawActivity timelineX statusYStart (timelineWidth 1000) statusRowHeight a,
        List.mem_map_of_mem _ ha, ?_⟩
    exact List.mem_cons_self _ _
  exact List.mem_append_left _ (List.mem_append_right _ hmem)

/-- The border call of any activity of the log appears among the ops of a
successful `drawLogSheet` (canvas width 1000). -/
lemma bar_stroke_mem {log : DailyLog} {ops : List DrawOp} {a : Activity}
    (hok : drawLogSheet 1000 1400 log = .ok ops) (ha : a ∈ log.activities.getD []) :
    DrawOp.strokeRect ((parseTime a.start).map (timeAxisMapper timelineX (timelineWidth 1000)))
      (statusYStart + (rowIndexOf a.type : ℚ) * statusRowHeight - 10)
      (jsSub ((parseTime a.«end»).map (timeAxisMapper timelineX (timelineWidth 1000)))
        ((parseTime a.start).map (timeAxisMapper timelineX (timelineWidth 1000))))
      (statusRowHeight - 2) "#000" 1 ∈ ops := by
  obtain ⟨m, b1, b2, b3, b4, b5, rfl⟩ := drawLogSheet_ok hok
  have hmem : DrawOp.strokeRect
      ((parseTime a.start).map (timeAxisMapper timelineX (timelineWidth 1000)))
      (statusYStart + (rowIndexOf a.type : ℚ) * statusRowHeight - 10)
      (jsSub ((parseTime a.«end»).map (timeAxisMapper timelineX (timelineWidth 1000)))
        ((parseTime a.start).map (timeAxisMapper timelineX (timelineWidth 1000))))
      (statusRowHeight - 2) "#000" 1 ∈
      drawDutyStatusTimeline log timelineX statusYStart (timelineWidth 1000) statusRowHeight := by
    unfold drawDutyStatusTimeline
    refine List.mem_flatten.mpr
      ⟨drawActivity timelineX statusYStart (timelineWidth 1000) statusRowHeight a,
        List.mem_map_of_mem _ ha, ?_⟩
    exact List.mem_cons_of_mem _ (List.mem_cons_self _ _)
  exact List.mem_append_left _ (List.mem_append_right _ hmem)

/-- The first row separator appears among the ops of a successful
`drawLogSheet`. -/
lemma sep_mem {log : DailyLog} {ops : List DrawOp}
    (hok : drawLogSheet 1000 1400 log = .ok ops) :
    DrawOp.strokeLine timelineX (statusYStart + ((0 : ℕ) : ℚ) * statusRowHeight - 10)
      (timelineX + timelineWidth 1000)
      (statusYStart + ((0 : ℕ) : ℚ) * statusRowHeight - 10) ∈ ops := by
  obtain ⟨m, b1, b2, b3, b4, b5, rfl⟩ := drawLogSheet_ok hok
  have hmem : DrawOp.strokeLine timelineX (statusYStart + ((0 : ℕ) : ℚ) * statusRowHeight - 10)
      (timelineX + timelineWidth 1000)
      (statusYStart + ((0 : ℕ) : ℚ) * statusRowHeight - 10) ∈ rowSeparatorOps 1000 := by
    unfold rowSeparatorOps
    exact List.mem_map_of_mem _ (List.mem_range.mpr (by omega))
  exact List.mem_append_left _ (List.mem_append_left _ (List.mem_append_left _
    (List.mem_append_right _ hmem)))

/-! ### Structure of a successful per-day render -/

lemma renderLogSheet_ok {log : DailyLog} {d : ℕ} {s : SheetOut}
    (h : renderLogSheet log d = .ok s) :
    ∃ ops, drawLogSheet 1000 1400 log = .ok ops ∧ s.day = d ∧
      s.canvasOps = DrawOp.clearRect 0 0 1000 1400 :: ops := by
  unfold renderLogSheet at h
  obtain ⟨_, _, h⟩ := bind_ok h
  obtain ⟨_, _, h⟩ := bind_ok h
  obtain ⟨_, _, h⟩ := bind_ok h
  obtain ⟨_, _, h⟩ := bind_ok h
  obtain ⟨ops, hops, h⟩ := map_ok h
  subst h
  exact ⟨ops, hops, rfl, rfl⟩

/-- Whether one day's render succeeds does not depend on its day number. -/
lemma renderLogSheet_isOk_day (log : DailyLog) (d1 d2 : ℕ) :
    isOk (renderLogSheet log d1) = isOk (renderLogSheet log d2) := by
  unfold renderLogSheet
  cases recapField log Recap.driving_hours with
  | error e => rfl
  | ok a =>
    cases recapField log Recap.on_duty_hours with
    | error e => rfl
    | ok b =>
      cases recapField log Recap.off_duty_hours with
      | error e => rfl
      | ok c =>
        cases jsToFixed2 log.total_miles_driving with
        | error e => rfl
        | ok m =>
          cases drawLogSheet 1000 1400 log with
          | error e => rfl
          | ok ops => rfl

/-! ### The orchestrator recursion -/

lemma renderSheets_ok : ∀ (l : List DailyLog) (i : ℕ) (ys : List SheetOut),
    renderSheets i l = .ok ys →
    ys.length = l.length ∧ ∀ j (hj : j < ys.length), (ys.get ⟨j, hj⟩).day = i + j + 1 := by
  intro l
  induction l with
  | nil =>
    intro i ys h
    simp only [renderSheets] at h
    cases h
    exact ⟨rfl, fun j hj => by simp at hj⟩
  | cons head tail ih =>
    intro i ys h
    simp only [renderSheets] at h
    obtain ⟨s, hs, h⟩ := bind_ok h
    obtain ⟨rest, hrest, h⟩ := map_ok h
    subst h
    obtain ⟨_, _, hday, _⟩ := renderLogSheet_ok hs
    obtain ⟨hlen, hdays⟩ := ih (i + 1) rest hrest
    refine ⟨by simp [hlen], fun j hj => ?_⟩
    cases j with
    | zero => simpa using hday
    | succ k =>
      have hk : k < rest.length := by simpa using hj
      have := hdays k hk
      simpa [List.get, Nat.add_assoc, Nat.add_comm, Nat.add_left_comm] using this

lemma renderSheets_err : ∀ (l : List DailyLog) (i : ℕ) {bad : DailyLog},
    bad ∈ l → isOk (renderLogSheet bad 1) = false → isOk (renderSheets i l) = false := by
  intro l
  induction l with
  | nil => intro i bad h; cases h
  | cons head tail ih =>
    intro i bad hmem hbad
    rcases List.mem_cons.mp hmem with rfl | hmem'
    · have hb : isOk (renderLogSheet bad (i + 1)) = false :=
        (renderLogSheet_isOk_day bad (i + 1) 1).trans hbad
      simp only [renderSheets]
      cases hr : renderLogSheet bad (i + 1) with
      | error e => rfl
      | ok s => rw [hr] at hb; simp [isOk] at hb
    · simp only [renderSheets]
      cases hr : renderLogSheet head (i + 1) with
      | error e => rfl
      | ok s =>
        have ht := ih (i + 1) hmem' hbad
        cases hts : renderSheets (i + 1) tail with
        | error e => rfl
        | ok rest => rw [hts] at ht; simp [isOk] at ht

end Spotter

namespace Spotter

lemma isGridLine_not_bar {op : DrawOp} (h : isGridLine op = true) : isBarRect op = false := by
  cases op <;> simp_all [isGridLine, isBarRect]

lemma isTextOp_not_horiz {op : DrawOp} (h : isTextOp op = true) :
    isHorizontalLine op = false := by
  cases op <;> simp_all [isTextOp, isHorizontalLine]

lemma isTextOp_not_vert {op : DrawOp} (h : isTextOp op = true) :
    isVerticalTick op = false := by
  cases op <;> simp_all [isTextOp, isVerticalTick]

lemma isBarRect_not_horiz {op : DrawOp} (h : isBarRect op = true) :
    isHorizontalLine op = false := by
  cases op <;> simp_all [isBarRect, isHorizontalLine]

lemma isBarRect_not_vert {op : DrawOp} (h : isBarRect op = true) :
    isVerticalTick op = false := by
  cases op <;> simp_all [isBarRect, isVerticalTick]

lemma isBarRect_not_label {op : DrawOp} (h : isBarRect op = true) :
    isHourLabel op = false := by
  cases op <;> simp_all [isBarRect, isHourLabel]

lemma countP_zero_of_all {p : DrawOp → Bool} {l : List DrawOp}
    (h : ∀ op ∈ l, p op = false) : l.countP p = 0 :=
  List.countP_eq_zero.mpr (fun a ha => by simp [h a ha])

lemma filter_nil_of_all {p : DrawOp → Bool} {l : List DrawOp}
    (h : ∀ op ∈ l, p op = false) : l.filter p = [] :=
  List.filter_eq_nil_iff.mpr (fun a ha => by simp [h a ha])

/-! ## The claims -/

/-- C1: contrary to the claimed fixed mapping (which sends `sleeper_berth`
to row 1), the source's row assignment at lines 167–172 has no
`sleeper_berth` branch, so a sleeper-berth bar lands in the default row 0 —
the Off Duty row; the other types match the claim. -/
theorem C1_row_assignment :
    rowIndexOf "off_duty" = 0 ∧ rowIndexOf "sleeper_berth" = 0 ∧
    rowIndexOf "driving" = 2 ∧ rowIndexOf "on_duty" = 3 ∧
    rowIndexOf "unknown_type" = 0 :=
  ⟨rfl, rfl, rfl, rfl, rfl⟩

/-- C2: the time-axis mapping returns exactly `x0 + (h / 24) * w`; it is
`x0` at `h = 0`, `x0 + w` at `h = 24`, and monotonically non-decreasing in
`h` over `[0, 24]` for a non-negative span width. -/
theorem C2_time_axis_mapping (x0 w h h1 h2 : ℚ) (hw : 0 ≤ w)
    (hh0 : 0 ≤ h) (hh24 : h ≤ 24) (h10 : 0 ≤ h1) (h12 : h1 ≤ h2) (h224 : h2 ≤ 24) :
    timeAxisMapper x0 w h = x0 + h / 24 * w ∧
    timeAxisMapper x0 w 0 = x0 ∧
    timeAxisMapper x0 w 24 = x0 + w ∧
    timeAxisMapper x0 w h1 ≤ timeAxisMapper x0 w h2 := by
  refine ⟨rfl, by simp [timeAxisMapper], by norm_num [timeAxisMapper], ?_⟩
  unfold timeAxisMapper
  have hmul : h1 / 24 * w ≤ h2 / 24 * w := by
    apply mul_le_mul_of_nonneg_right _ hw
    linarith
  linarith

theorem C2_witness :
    (0 : ℚ) ≤ 720 ∧ (0 : ℚ) ≤ 6 ∧ (6 : ℚ) ≤ 24 ∧ (0 : ℚ) ≤ 3 ∧ (3 : ℚ) ≤ 5 ∧ (5 : ℚ) ≤ 24 ∧
    (timeAxisMapper 240 720 6 = 240 + 6 / 24 * 720 ∧
     timeAxisMapper 240 720 0 = 240 ∧
     timeAxisMapper 240 720 24 = 240 + 720 ∧
     timeAxisMapper 240 720 3 ≤ timeAxisMapper 240 720 5) :=
  ⟨by norm_num, by norm_num, by norm_num, by norm_num, by norm_num, by norm_num,
   C2_time_axis_mapping 240 720 6 3 5 (by norm_num) (by norm_num) (by norm_num)
     (by norm_num) (by norm_num) (by norm_num)⟩

/-- C3: for an activity with parseable times, the two emitted calls are a
fill and a 1-unit black border of the rectangle from
`timeAxisMapper start` to `timeAxisMapper end`, of height `rowHeight − 2`,
in the activity's row, filled with the type-keyed palette: red `#e74c3c`
for driving, orange `#f39c12` for on_duty, blue `#3498db` for everything
else. -/
theorem C3_activity_bar_geometry (x yStart width rowHeight : ℚ) (a : Activity)
    (hs he : ℚ) (h1 : parseTime a.start = some hs) (h2 : parseTime a.«end» = some he) :
    drawActivity x yStart width rowHeight a =
      [DrawOp.fillRect (some (timeAxisMapper x width hs))
        (yStart + (rowIndexOf a.type : ℚ) * rowHeight - 10)
        (some (timeAxisMapper x width he - timeAxisMapper x width hs))
        (rowHeight - 2) (activityColor a.type),
       DrawOp.strokeRect (some (timeAxisMapper x width hs))
        (yStart + (rowIndexOf a.type : ℚ) * rowHeight - 10)
        (some (timeAxisMapper x width he - timeAxisMapper x width hs))
        (rowHeight - 2) "#000" 1] ∧
    activityColor "driving" = "#e74c3c" ∧
    activityColor "on_duty" = "#f39c12" ∧
    (∀ ty : String, ty ≠ "driving" → ty ≠ "on_duty" → activityColor ty = "#3498db") := by
  refine ⟨?_, rfl, rfl, fun ty hd ho => by simp [activityColor, hd, ho]⟩
  simp [drawActivity, h1, h2, jsSub]

theorem C3_witness :
    parseTime "06:00" = some (6 + 0 / 60) ∧ parseTime "12:00" = some (12 + 0 / 60) ∧
    drawActivity 240 270 720 50 ⟨"driving", "06:00", "12:00"⟩ =
      [DrawOp.fillRect (some (timeAxisMapper 240 720 (6 + 0 / 60)))
        (270 + (rowIndexOf "driving" : ℚ) * 50 - 10)
        (some (timeAxisMapper 240 720 (12 + 0 / 60) - timeAxisMapper 240 720 (6 + 0 / 60)))
        (50 - 2) (activityColor "driving"),
       DrawOp.strokeRect (some (timeAxisMapper 240 720 (6 + 0 / 60)))
        (270 + (rowIndexOf "driving" : ℚ) * 50 - 10)
        (some (timeAxisMapper 240 720 (12 + 0 / 60) - timeAxisMapper 240 720 (6 + 0 / 60)))
        (50 - 2) "#000" 1] :=
  ⟨rfl, rfl,
   (C3_activity_bar_geometry 240 270 720 50 ⟨"driving", "06:00", "12:00"⟩
     (6 + 0 / 60) (12 + 0 / 60) rfl rfl).1⟩

/-- C4: for every `DailyLog` whose sheet draws, the emitted ops contain
exactly 5 horizontal row separators, exactly 25 vertical hour ticks, and
exactly 13 hour labels, at the even hours in order: `Mid` at 0, the
numeral below 12, `Noon` at 12, and `hour − 12` above 12; odd hours
contribute ticks but no labels.  The grid segment of `drawLogSheet` takes
no log input, so this is content-independent by construction. -/
theorem C4_grid_counts (log : DailyLog) (ops : List DrawOp)
    (h : drawLogSheet 1000 1400 log = .ok ops) :
    ops.countP isHorizontalLine = 5 ∧
    ops.countP isVerticalTick = 25 ∧
    (ops.filter isHourLabel).map labelText =
      ["Mid", "2", "4", "6", "8", "10", "Noon", "2", "4", "6", "8", "10", "12"] ∧
    (ops.filter isHourLabel).length = 13 := by
  obtain ⟨m, b1, b2, b3, b4, b5, rfl⟩ := drawLogSheet_ok h
  have hHt : ∀ op ∈ headerList 1000 log m, isTextOp op = true :=
    fun op hop => mem_headerList_isTextOp hop
  have hSt : ∀ op ∈ statusLabelOps, isTextOp op = true :=
    fun op hop => mem_statusLabelOps_isTextOp hop
  have hRt : ∀ op ∈ recapList b1 b2 b3 b4 b5, isTextOp op = true :=
    fun op hop => mem_recapList_isTextOp hop
  have hBt : ∀ op ∈ drawDutyStatusTimeline log timelineX statusYStart (timelineWidth 1000)
      statusRowHeight, isBarRect op = true :=
    fun op hop => mem_timeline_isBarRect hop
  have h3 : ((headerList 1000 log m ++ statusLabelOps ++ rowSeparatorOps 1000 ++
      hourOps 1000 ++ drawDutyStatusTimeline log timelineX statusYStart (timelineWidth 1000)
        statusRowHeight ++ recapList b1 b2 b3 b4 b5).filter isHourLabel).map labelText =
      ["Mid", "2", "4", "6", "8", "10", "Noon", "2", "4", "6", "8", "10", "12"] := by
    rw [List.filter_append, List.filter_append, List.filter_append, List.filter_append,
      List.filter_append,
      filter_nil_of_all (fun op hop => isHourLabel_headerList hop),
      filter_nil_of_all (fun op hop => isHourLabel_statusLabelOps hop),
      filter_sep_label,
      filter_nil_of_all (fun op hop => isHourLabel_timeline hop),
      filter_nil_of_all (fun op hop => isHourLabel_recapList hop)]
    simp only [List.nil_append, List.append_nil]
    exact filter_hour_label 1000
  refine ⟨?_, ?_, h3, ?_⟩
  · rw [List.countP_append, List.countP_append, List.countP_append, List.countP_append,
      List.countP_append,
      countP_zero_of_all (fun op hop => isTextOp_not_horiz (hHt op hop)),
      countP_zero_of_all (fun op hop => isTextOp_not_horiz (hSt op hop)),
      countP_zero_of_all (fun op hop => isBarRect_not_horiz (hBt op hop)),
      countP_zero_of_all (fun op hop => isTextOp_not_horiz (hRt op hop)),
      countP_sep_horizontal, countP_hour_horiz]
  · rw [List.countP_append, List.countP_append, List.countP_append, List.countP_append,
      List.countP_append,
      countP_zero_of_all (fun op hop => isTextOp_not_vert (hHt op hop)),
      countP_zero_of_all (fun op hop => isTextOp_not_vert (hSt op hop)),
      countP_zero_of_all (fun op hop => isBarRect_not_vert (hBt op hop)),
      countP_zero_of_all (fun op hop => isTextOp_not_vert (hRt op hop)),
      countP_sep_vertical, countP_hour_tick]
  · have hlen := congrArg List.length h3
    simpa using hlen

theorem C4_witness :
    (okOps (drawLogSheet 1000 1400 demoLog)).countP isHorizontalLine = 5 ∧
    (okOps (drawLogSheet 1000 1400 demoLog)).countP isVerticalTick = 25 ∧
    ((okOps (drawLogSheet 1000 1400 demoLog)).filter isHourLabel).map labelText =
      ["Mid", "2", "4", "6", "8", "10", "Noon", "2", "4", "6", "8", "10", "12"] ∧
    ((okOps (drawLogSheet 1000 1400 demoLog)).filter isHourLabel).length = 13 :=
  C4_grid_counts demoLog (okOps (drawLogSheet 1000 1400 demoLog)) rfl

end Spotter

namespace Spotter

/-- C5 counterexample: the claim says a malformed time is surfaced before
any drawing call and that nothing of the sheet is drawn from it; on the log
whose activity starts at "noon", `parseTime` yields NaN, `drawLogSheet`
returns ok (no error is surfaced), the activity's fill call is issued with
NaN x-coordinate and NaN width, and the grid is drawn as usual. -/
theorem C5_counterexample :
    parseTime "noon" = none ∧
    isOk (drawLogSheet 1000 1400 badTimeLog) = true ∧
    DrawOp.fillRect none (statusYStart + (rowIndexOf "off_duty" : ℚ) * statusRowHeight - 10)
      none (statusRowHeight - 2) (activityColor "off_duty")
      ∈ okOps (drawLogSheet 1000 1400 badTimeLog) ∧
    DrawOp.strokeLine timelineX (statusYStart + ((0 : ℕ) : ℚ) * statusRowHeight - 10)
      (timelineX + timelineWidth 1000)
      (statusYStart + ((0 : ℕ) : ℚ) * statusRowHeight - 10)
      ∈ okOps (drawLogSheet 1000 1400 badTimeLog) := by
  refine ⟨rfl, rfl, ?_,
    @sep_mem badTimeLog (okOps (drawLogSheet 1000 1400 badTimeLog)) rfl⟩
  exact @bar_fill_mem badTimeLog (okOps (drawLogSheet 1000 1400 badTimeLog))
    ⟨"off_duty", "noon", "06:00"⟩ rfl (List.mem_cons_self _ _)

/-- C5, as amended: a malformed `start` or `end` is not detected or
surfaced — the sheet still renders, and both the fill call and the border
call of the activity's bar are still issued, with NaN width; the bar's
x-coordinate is NaN whenever the `start` itself is the unparseable one (an
unparseable `end` alone leaves the x-coordinate finite). -/
theorem C5_no_error_surfacing (log : DailyLog) (ops : List DrawOp) (a : Activity)
    (hok : drawLogSheet 1000 1400 log = .ok ops)
    (ha : a ∈ log.activities.getD [])
    (hbad : parseTime a.start = none ∨ parseTime a.«end» = none) :
    DrawOp.fillRect ((parseTime a.start).map (timeAxisMapper timelineX (timelineWidth 1000)))
      (statusYStart + (rowIndexOf a.type : ℚ) * statusRowHeight - 10)
      none (statusRowHeight - 2) (activityColor a.type) ∈ ops ∧
    DrawOp.strokeRect ((parseTime a.start).map (timeAxisMapper timelineX (timelineWidth 1000)))
      (statusYStart + (rowIndexOf a.type : ℚ) * statusRowHeight - 10)
      none (statusRowHeight - 2) "#000" 1 ∈ ops ∧
    (parseTime a.start = none →
      (parseTime a.start).map (timeAxisMapper timelineX (timelineWidth 1000)) = none) := by
  have hw : jsSub ((parseTime a.«end»).map (timeAxisMapper timelineX (timelineWidth 1000)))
      ((parseTime a.start).map (timeAxisMapper timelineX (timelineWidth 1000))) = none := by
    rcases hbad with hb | hb
    · rw [hb]
      simp [jsSub_none_right]
    · rw [hb]
      simp [jsSub_none_left]
  have h1 := bar_fill_mem hok ha
  have h2 := bar_stroke_mem hok ha
  rw [hw] at h1 h2
  refine ⟨h1, h2, fun hs => ?_⟩
  rw [hs]
  rfl

theorem C5_witness :
    (⟨"off_duty", "06:00", "noon"⟩ : Activity) ∈ badEndLog.activities.getD [] ∧
    parseTime "noon" = none ∧
    parseTime "06:00" = some (6 + 0 / 60) ∧
    (DrawOp.fillRect
        ((parseTime "06:00").map (timeAxisMapper timelineX (timelineWidth 1000)))
        (statusYStart + (rowIndexOf "off_duty" : ℚ) * statusRowHeight - 10)
        none (statusRowHeight - 2) (activityColor "off_duty")
        ∈ okOps (drawLogSheet 1000 1400 badEndLog) ∧
     DrawOp.strokeRect
        ((parseTime "06:00").map (timeAxisMapper timelineX (timelineWidth 1000)))
        (statusYStart + (rowIndexOf "off_duty" : ℚ) * statusRowHeight - 10)
        none (statusRowHeight - 2) "#000" 1
        ∈ okOps (drawLogSheet 1000 1400 badEndLog) ∧
     (parseTime "06:00" = none →
       (parseTime "06:00").map (timeAxisMapper timelineX (timelineWidth 1000)) = none)) :=
  ⟨List.mem_cons_self _ _, rfl, rfl,
   C5_no_error_surfacing badEndLog (okOps (drawLogSheet 1000 1400 badEndLog))
     ⟨"off_duty", "06:00", "noon"⟩ rfl (List.mem_cons_self _ _) (Or.inr rfl)⟩

/-- C6 counterexample: in the sequence `[badRecapLog, demoLog]` the first
day fails on its own (missing recap) while the second renders fine on its
own; the orchestrator yields a single TypeError and produces no sheets at
all — the healthy second day is not rendered, and no per-day failure report
of the form "log for day N could not be rendered" exists anywhere in the
output. -/
theorem C6_counterexample :
    isOk (renderLogSheet badRecapLog 1) = false ∧
    isOk (renderLogSheet demoLog 2) = true ∧
    logSheets (some [badRecapLog, demoLog]) =
      .error "TypeError: log.recap is undefined" :=
  ⟨rfl, rfl, rfl⟩

/-- C6, as amended: the orchestrator does not isolate per-day failures:
whenever any log of the sequence fails to render on its own, the whole
orchestrator run fails (producing no sheets and no per-day failure
report). -/
theorem C6_no_isolation (logs : List DailyLog) (bad : DailyLog)
    (hmem : bad ∈ logs) (hbad : isOk (renderLogSheet bad 1) = false) :
    isOk (logSheets (some logs)) = false := by
  simp only [logSheets]
  have hne : ¬logs.length = 0 := by
    cases logs with
    | nil => cases hmem
    | cons a l => simp
  rw [if_neg hne]
  have h := renderSheets_err logs 0 hmem hbad
  cases hr : renderSheets 0 logs with
  | error e => rfl
  | ok ys => rw [hr] at h; simp [isOk] at h

theorem C6_witness :
    badRecapLog ∈ [badRecapLog, demoLog] ∧
    isOk (renderLogSheet badRecapLog 1) = false ∧
    isOk (logSheets (some [badRecapLog, demoLog])) = false :=
  ⟨List.mem_cons_self _ _, rfl,
   C6_no_isolation [badRecapLog, demoLog] badRecapLog (List.mem_cons_self _ _) rfl⟩

/-- C7 counterexample: the claim says the composer invokes the grid builder
first; but on the demo log the very first op of the sheet body is the
header title text — a text op, not a grid op — while a grid line does occur
later in the sequence. -/
theorem C7_counterexample :
    (okOps (drawLogSheet 1000 1400 demoLog)).head? =
      some (DrawOp.fillText "Drivers Daily Log (24 hours)" margin 30) ∧
    isGridLine (DrawOp.fillText "Drivers Daily Log (24 hours)" margin 30) = false ∧
    isTextOp (DrawOp.fillText "Drivers Daily Log (24 hours)" margin 30) = true ∧
    DrawOp.strokeLine timelineX (statusYStart + ((0 : ℕ) : ℚ) * statusRowHeight - 10)
      (timelineX + timelineWidth 1000)
      (statusYStart + ((0 : ℕ) : ℚ) * statusRowHeight - 10)
      ∈ okOps (drawLogSheet 1000 1400 demoLog) :=
  ⟨rfl, rfl, rfl, @sep_mem demoLog (okOps (drawLogSheet 1000 1400 demoLog)) rfl⟩

/-- C7, as amended: the composer draws onto a freshly cleared surface in
the order: header and row-label text first (all text ops), then the grid
(the row separators followed by the hour ticks and their labels — every op
of that segment is a grid line or an hour label, and a grid line is
present), then the activity bars (all rectangle ops), then the recap text
(all text ops); in particular an activity bar is never drawn before the
grid. -/
theorem C7_paint_order (log : DailyLog) (d : ℕ) (s : SheetOut)
    (h : renderLogSheet log d = .ok s) :
    ∃ m b1 b2 b3 b4 b5,
      s.canvasOps = DrawOp.clearRect 0 0 1000 1400 ::
        (headerList 1000 log m ++ statusLabelOps ++ rowSeparatorOps 1000 ++ hourOps 1000 ++
          drawDutyStatusTimeline log timelineX statusYStart (timelineWidth 1000)
            statusRowHeight ++
          recapList b1 b2 b3 b4 b5) ∧
      (∀ op ∈ headerList 1000 log m ++ statusLabelOps, isTextOp op = true) ∧
      (∀ op ∈ rowSeparatorOps 1000 ++ hourOps 1000,
        isGridLine op = true ∨ isHourLabel op = true) ∧
      (∃ op ∈ rowSeparatorOps 1000 ++ hourOps 1000, isGridLine op = true) ∧
      (∀ op ∈ drawDutyStatusTimeline log timelineX statusYStart (timelineWidth 1000)
        statusRowHeight, isBarRect op = true) ∧
      (∀ op ∈ recapList b1 b2 b3 b4 b5, isTextOp op = true) := by
  obtain ⟨ops, hops, _, hcanvas⟩ := renderLogSheet_ok h
  obtain ⟨m, b1, b2, b3, b4, b5, heq⟩ := drawLogSheet_ok hops
  refine ⟨m, b1, b2, b3, b4, b5, by rw [hcanvas, heq], ?_, ?_, ?_,
    fun op hop => mem_timeline_isBarRect hop,
    fun op hop => mem_recapList_isTextOp hop⟩
  · intro op hop
    rcases List.mem_append.mp hop with hop | hop
    · exact mem_headerList_isTextOp hop
    · exact mem_statusLabelOps_isTextOp hop
  · intro op hop
    rcases List.mem_append.mp hop with hop | hop
    · exact Or.inl (mem_rowSeparatorOps_isGridLine hop)
    · exact mem_hourOps_grid_or_label hop
  · refine ⟨DrawOp.strokeLine timelineX (statusYStart + ((0 : ℕ) : ℚ) * statusRowHeight - 10)
      (timelineX + timelineWidth 1000)
      (statusYStart + ((0 : ℕ) : ℚ) * statusRowHeight - 10),
      List.mem_append_left _ ?_, rfl⟩
    unfold rowSeparatorOps
    exact List.mem_map_of_mem _ (List.mem_range.mpr (by omega))

theorem C7_witness :
    ∃ m b1 b2 b3 b4 b5,
      (okSheet (renderLogSheet demoLog 1)).canvasOps = DrawOp.clearRect 0 0 1000 1400 ::
        (headerList 1000 demoLog m ++ statusLabelOps ++ rowSeparatorOps 1000 ++
          hourOps 1000 ++
          drawDutyStatusTimeline demoLog timelineX statusYStart (timelineWidth 1000)
            statusRowHeight ++
          recapList b1 b2 b3 b4 b5) ∧
      (∀ op ∈ headerList 1000 demoLog m ++ statusLabelOps, isTextOp op = true) ∧
      (∀ op ∈ rowSeparatorOps 1000 ++ hourOps 1000,
        isGridLine op = true ∨ isHourLabel op = true) ∧
      (∃ op ∈ rowSeparatorOps 1000 ++ hourOps 1000, isGridLine op = true) ∧
      (∀ op ∈ drawDutyStatusTimeline demoLog timelineX statusYStart (timelineWidth 1000)
        statusRowHeight, isBarRect op = true) ∧
      (∀ op ∈ recapList b1 b2 b3 b4 b5, isTextOp op = true) :=
  C7_paint_order demoLog 1 (okSheet (renderLogSheet demoLog 1)) rfl

/-- C8: the orchestrator produces exactly one composed sheet per record, the
day number of the j-th sheet is its 1-based position j+1 regardless of the
records' date values, and the empty sequence yields `null` (no sheets)
without an error. -/
theorem C8_orchestrator (logs : List DailyLog) (sheets : List SheetOut)
    (h : logSheets (some logs) = .ok (some sheets)) :
    sheets.length = logs.length ∧
    (∀ j (hj : j < sheets.length), (sheets.get ⟨j, hj⟩).day = j + 1) ∧
    logSheets (some []) = .ok none := by
  simp only [logSheets] at h
  by_cases hl : logs.length = 0
  · rw [if_pos hl] at h
    simp at h
  · rw [if_neg hl] at h
    obtain ⟨ys, hys, hsome⟩ := map_ok h
    rw [Option.some.inj hsome] at hys
    obtain ⟨hlen, hday⟩ := renderSheets_ok logs 0 sheets hys
    exact ⟨hlen, fun j hj => by simpa using hday j hj, rfl⟩

theorem C8_witness :
    (okSheets (logSheets (some [demoLog, demoLog, demoLog]))).length =
      ([demoLog, demoLog, demoLog] : List DailyLog).length ∧
    (∀ j (hj : j < (okSheets (logSheets (some [demoLog, demoLog, demoLog]))).length),
      ((okSheets (logSheets (some [demoLog, demoLog, demoLog]))).get ⟨j, hj⟩).day = j + 1) ∧
    logSheets (some []) = .ok none :=
  C8_orchestrator [demoLog, demoLog, demoLog]
    (okSheets (logSheets (some [demoLog, demoLog, demoLog]))) rfl

/-- C9: an activity whose start equals its end renders without error as a
zero-width bar: both rectangle calls are still issued, with equal start and
end x-coordinates and width exactly 0. -/
theorem C9_zero_width_bar (x yStart width rowHeight : ℚ) (ty s : String) (t : ℚ)
    (h : parseTime s = some t) :
    drawActivity x yStart width rowHeight ⟨ty, s, s⟩ =
      [DrawOp.fillRect (some (timeAxisMapper x width t))
        (yStart + (rowIndexOf ty : ℚ) * rowHeight - 10) (some 0) (rowHeight - 2)
        (activityColor ty),
       DrawOp.strokeRect (some (timeAxisMapper x width t))
        (yStart + (rowIndexOf ty : ℚ) * rowHeight - 10) (some 0) (rowHeight - 2)
        "#000" 1] := by
  simp [drawActivity, h, jsSub, sub_self]

theorem C9_witness :
    parseTime "12:00" = some (12 + 0 / 60) ∧
    drawActivity 240 270 720 50 ⟨"on_duty", "12:00", "12:00"⟩ =
      [DrawOp.fillRect (some (timeAxisMapper 240 720 (12 + 0 / 60)))
        (270 + (rowIndexOf "on_duty" : ℚ) * 50 - 10) (some 0) (50 - 2)
        (activityColor "on_duty"),
       DrawOp.strokeRect (some (timeAxisMapper 240 720 (12 + 0 / 60)))
        (270 + (rowIndexOf "on_duty" : ℚ) * 50 - 10) (some 0) (50 - 2)
        "#000" 1] :=
  ⟨rfl, C9_zero_width_bar 240 270 720 50 "on_duty" "12:00" (12 + 0 / 60) rfl⟩

/-- C10: a log whose `activities` field is missing is treated exactly like
one with an empty list: the bar builder succeeds and draws no bars. -/
theorem C10_missing_activities (log : DailyLog) (x yStart width rowHeight : ℚ)
    (h : log.activities = none) :
    drawDutyStatusTimeline log x yStart width rowHeight = [] ∧
    drawDutyStatusTimeline log x yStart width rowHeight =
      drawDutyStatusTimeline { log with activities := some [] } x yStart width rowHeight := by
  constructor <;> simp [drawDutyStatusTimeline, h]

theorem C10_witness :
    noActsLog.activities = none ∧
    (drawDutyStatusTimeline noActsLog timelineX statusYStart (timelineWidth 1000)
        statusRowHeight = [] ∧
     drawDutyStatusTimeline noActsLog timelineX statusYStart (timelineWidth 1000)
        statusRowHeight =
       drawDutyStatusTimeline { noActsLog with activities := some [] } timelineX statusYStart
        (timelineWidth 1000) statusRowHeight) :=
  ⟨rfl, C10_missing_activities noActsLog timelineX statusYStart (timelineWidth 1000)
    statusRowHeight rfl⟩

end Spotter
